import Mathlib

/-!
Verification of the element model and geometric transform engine of the
event-canvas-art editor.  The TypeScript source is shallowly embedded:
numbers are rationals, `Math.round` is `jsRound`, JavaScript's special
floating values (`Infinity`, `NaN`) are captured by the `JSNum` type where
the source can actually produce them, partial property updates are records
of `Option` fields mirroring `Partial<CanvasElement>` object spread, and
React state updates become pure state-passing functions.
-/

set_option maxHeartbeats 1000000

/-- `Math.round` in JavaScript: round half toward positive infinity. -/
def jsRound (q : ℚ) : ℤ := ⌊q + 1/2⌋

/-- Shape kind tags of the `CanvasElement` tagged union in `types/editor.ts`. -/
inductive ShapeType where
  | rect
  | circle
  | polygon
  | text
  | image
  deriving Repr, DecidableEq

/-- Stroke layer positions from `types/editor.ts`. -/
inductive StrokePosition where
  | inside
  | center
  | outside
  deriving Repr, DecidableEq

/-- One stroke layer `{color, width, position}` from `types/editor.ts`. -/
structure StrokeLayer where
  color : String
  width : ℚ
  position : StrokePosition
  deriving Repr, DecidableEq

/-- The canvas element.  The TypeScript source is a duck-typed union
(`RectElement | CircleElement | PolygonElement | TextElement | ImageElement`);
at runtime every element is a plain object, and `updateElement` merges
arbitrary partial records into it with object spread.  We therefore flatten
the union into one record carrying the tag plus all variant fields; fields
that are optional in TypeScript (`opacity?`, `strokes?`, `placeholderImage?`,
`imageOffsetX?`, ...) are `Option`s, variant-specific required fields are
plain and simply unread for the other variants, matching how the source
accesses them (always behind a `element.type` check or a `|| default`). -/
structure CanvasElement where
  id : String
  type : ShapeType
  x : ℚ
  y : ℚ
  rotation : ℚ
  isPlaceholder : Bool
  opacity : Option ℚ := none
  strokes : Option (List StrokeLayer) := none
  placeholderImage : Option String := none
  imageOffsetX : Option ℚ := none
  imageOffsetY : Option ℚ := none
  imageScale : Option ℚ := none
  width : ℚ := 0
  height : ℚ := 0
  cornerRadius : ℚ := 0
  radius : ℚ := 0
  sides : ℕ := 0
  fill : String := ""
  stroke : String := ""
  strokeWidth : ℚ := 0
  text : String := ""
  fontSize : ℚ := 0
  fontFamily : String := ""
  src : String := ""
  deriving Repr, DecidableEq

/-- A `Partial<CanvasElement>`: every field optional, `none` meaning the key
is absent from the update object. -/
structure ElementUpdates where
  id : Option String := none
  type : Option ShapeType := none
  x : Option ℚ := none
  y : Option ℚ := none
  rotation : Option ℚ := none
  isPlaceholder : Option Bool := none
  opacity : Option (Option ℚ) := none
  strokes : Option (Option (List StrokeLayer)) := none
  placeholderImage : Option (Option String) := none
  imageOffsetX : Option (Option ℚ) := none
  imageOffsetY : Option (Option ℚ) := none
  imageScale : Option (Option ℚ) := none
  width : Option ℚ := none
  height : Option ℚ := none
  cornerRadius : Option ℚ := none
  radius : Option ℚ := none
  sides : Option ℕ := none
  fill : Option String := none
  stroke : Option String := none
  strokeWidth : Option ℚ := none
  text : Option String := none
  fontSize : Option ℚ := none
  fontFamily : Option String := none
  src : Option String := none
  deriving Repr, DecidableEq

/-- Object spread `{...el, ...updates}` from `useCanvas.ts`: every key
present in the update overwrites the element's value, every absent key
keeps it. -/
def applyUpdates (el : CanvasElement) (u : ElementUpdates) : CanvasElement where
  id := u.id.getD el.id
  type := u.type.getD el.type
  x := u.x.getD el.x
  y := u.y.getD el.y
  rotation := u.rotation.getD el.rotation
  isPlaceholder := u.isPlaceholder.getD el.isPlaceholder
  opacity := u.opacity.getD el.opacity
  strokes := u.strokes.getD el.strokes
  placeholderImage := u.placeholderImage.getD el.placeholderImage
  imageOffsetX := u.imageOffsetX.getD el.imageOffsetX
  imageOffsetY := u.imageOffsetY.getD el.imageOffsetY
  imageScale := u.imageScale.getD el.imageScale
  width := u.width.getD el.width
  height := u.height.getD el.height
  cornerRadius := u.cornerRadius.getD el.cornerRadius
  radius := u.radius.getD el.radius
  sides := u.sides.getD el.sides
  fill := u.fill.getD el.fill
  stroke := u.stroke.getD el.stroke
  strokeWidth := u.strokeWidth.getD el.strokeWidth
  text := u.text.getD el.text
  fontSize := u.fontSize.getD el.fontSize
  fontFamily := u.fontFamily.getD el.fontFamily
  src := u.src.getD el.src

/-- `updateElement` from `useCanvas.ts` (lines 78-88): map over the previous
element list, merging the partial update into each element whose id matches
and returning every other element untouched. -/
def updateElement (prev : List CanvasElement) (targetId : String)
    (u : ElementUpdates) : List CanvasElement :=
  prev.map fun el => if el.id = targetId then applyUpdates el u else el

/-- The gesture readings consumed by `handleTransformEnd` in
`CanvasStage.tsx`: the group node's position and rotation, and the
transformer-target node's scale factors and local geometry. -/
structure GestureNode where
  groupX : ℚ
  groupY : ℚ
  groupRotation : ℚ
  scaleX : ℚ
  scaleY : ℚ
  targetX : ℚ := 0
  targetY : ℚ := 0
  targetWidth : ℚ := 0
  targetHeight : ℚ := 0
  deriving Repr, DecidableEq

/-- `handleTransformEnd` from `CanvasStage.tsx` (lines 286-356): build the
canonical attribute update from the element and the end-of-gesture node
readings, and reset the live node (scale factors back to 1, local geometry
re-centred at the new size) before `onUpdate` delivers the update.  The
returned pair is (update record, node state after the in-place resets). -/
def handleTransformEnd (el : CanvasElement) (n : GestureNode) :
    ElementUpdates × GestureNode :=
  let base : ElementUpdates :=
    { x := some ((jsRound n.groupX : ℤ) : ℚ)
      y := some ((jsRound n.groupY : ℤ) : ℚ)
      rotation := some ((jsRound n.groupRotation : ℤ) : ℚ) }
  match el.type with
  | ShapeType.rect | ShapeType.image =>
    let originalWidth : ℚ := if el.width = 0 then 100 else el.width
    let originalHeight : ℚ := if el.height = 0 then 100 else el.height
    let newW : ℚ := ((max 20 (jsRound (originalWidth * n.scaleX)) : ℤ) : ℚ)
    let newH : ℚ := ((max 20 (jsRound (originalHeight * n.scaleY)) : ℤ) : ℚ)
    ({ base with width := some newW, height := some newH },
     { n with scaleX := 1, scaleY := 1,
              targetWidth := newW, targetHeight := newH,
              targetX := -newW / 2, targetY := -newH / 2 })
  | ShapeType.circle | ShapeType.polygon =>
    let scaleAvg := (n.scaleX + n.scaleY) / 2
    let originalRadius : ℚ := if el.radius = 0 then 50 else el.radius
    let newR : ℚ := ((max 10 (jsRound (originalRadius * scaleAvg)) : ℤ) : ℚ)
    ({ base with radius := some newR },
     { n with scaleX := 1, scaleY := 1,
              targetWidth := newR * 2, targetHeight := newR * 2,
              targetX := -(newR * 2) / 2, targetY := -(newR * 2) / 2 })
  | ShapeType.text =>
    let originalWidth : ℚ := if el.width = 0 then 200 else el.width
    let newW : ℚ := ((max 50 (jsRound (originalWidth * n.scaleX)) : ℤ) : ℚ)
    ({ base with width := some newW },
     { n with scaleX := 1, scaleY := 1 })

/-- JavaScript double arithmetic restricted to the values the fitter can
produce: an exact rational, the two infinities, or `NaN`.  Only the
operations the source performs on possibly-degenerate inputs are modelled. -/
inductive JSNum where
  | num (q : ℚ)
  | inf
  | ninf
  | nan
  deriving Repr, DecidableEq

namespace JSNum

/-- JavaScript division.  `a / 0` gives a signed infinity, `0 / 0` gives
`NaN`, `NaN` propagates, and a finite number divided by an infinity is 0. -/
def div : JSNum → JSNum → JSNum
  | nan, _ => nan
  | _, nan => nan
  | num a, num b =>
      if b = 0 then (if a = 0 then nan else if 0 < a then inf else ninf)
      else num (a / b)
  | num _, inf => num 0
  | num _, ninf => num 0
  | inf, num b => if 0 ≤ b then inf else ninf
  | ninf, num b => if 0 ≤ b then ninf else inf
  | inf, inf => nan
  | inf, ninf => nan
  | ninf, inf => nan
  | ninf, ninf => nan

/-- JavaScript multiplication.  `0 * Infinity` is `NaN`; `NaN` propagates. -/
def mul : JSNum → JSNum → JSNum
  | nan, _ => nan
  | _, nan => nan
  | num a, num b => num (a * b)
  | num a, inf => if a = 0 then nan else if 0 < a then inf else ninf
  | inf, num a => if a = 0 then nan else if 0 < a then inf else ninf
  | num a, ninf => if a = 0 then nan else if 0 < a then ninf else inf
  | ninf, num a => if a = 0 then nan else if 0 < a then ninf else inf
  | inf, inf => inf
  | inf, ninf => ninf
  | ninf, inf => ninf
  | ninf, ninf => inf

/-- JavaScript subtraction.  `Infinity - Infinity` is `NaN`; `NaN`
propagates. -/
def sub : JSNum → JSNum → JSNum
  | nan, _ => nan
  | _, nan => nan
  | num a, num b => num (a - b)
  | inf, num _ => inf
  | num _, inf => ninf
  | ninf, num _ => ninf
  | num _, ninf => inf
  | inf, inf => nan
  | ninf, ninf => nan
  | inf, ninf => inf
  | ninf, inf => ninf

/-- `Math.max` on two values: `NaN` if either argument is `NaN`, otherwise
the larger with the infinities at the extremes. -/
def jsMax : JSNum → JSNum → JSNum
  | nan, _ => nan
  | _, nan => nan
  | inf, _ => inf
  | _, inf => inf
  | ninf, b => b
  | a, ninf => a
  | num a, num b => num (max a b)

/-- A `JSNum` is finite when it is an actual rational. -/
def isFinite : JSNum → Bool
  | num _ => true
  | _ => false

end JSNum

/-- The Konva fill props computed by `URLImageShape` in the generator
(`Generator.tsx` / part_007): either a plain solid fill or a pattern fill
described by scale and offset values. -/
inductive FillProps where
  | solid (fill : Option String)
  | pattern (scaleX scaleY offsetX offsetY : JSNum)
  deriving Repr, DecidableEq

/-- `'fill' in element ? element.fill : undefined`: every element variant
except `image` declares a `fill` field. -/
def fallbackFill (el : CanvasElement) : Option String :=
  if el.type = ShapeType.image then none else some el.fill

/-- The target dimensions used by `URLImageShape.fillProps`: `circle` and
`polygon` use the diameter on both axes, `rect` and `image` use width and
height, and the variables stay at their 0 initialisers for `text`. -/
def shapeDims (el : CanvasElement) : ℚ × ℚ :=
  match el.type with
  | ShapeType.circle | ShapeType.polygon => (el.radius * 2, el.radius * 2)
  | ShapeType.rect | ShapeType.image => (el.width, el.height)
  | ShapeType.text => (0, 0)

/-- `URLImageShape.fillProps` from the generator (part_007 lines 51-86):
fall back to the solid fill when the image has not loaded or no source was
supplied; otherwise compute the object-fit:cover pattern,
`scale = max(shapeW/imgW, shapeH/imgH)`, centring offsets
`(imgW*scale - shapeW)/2` and `(imgH*scale - shapeH)/2`, each divided back
by `scale` for the unscaled pattern coordinate space.  The arithmetic uses
the JavaScript number algebra, so degenerate image dimensions flow through
exactly as the doubles would. -/
def fillProps (el : CanvasElement) (src : Option String)
    (image : Option (ℚ × ℚ)) : FillProps :=
  match image, src with
  | some (imgW, imgH), some _ =>
    let dims := shapeDims el
    let scale := JSNum.jsMax (JSNum.div (JSNum.num dims.1) (JSNum.num imgW))
                             (JSNum.div (JSNum.num dims.2) (JSNum.num imgH))
    let offsetX := JSNum.div (JSNum.sub (JSNum.mul (JSNum.num imgW) scale)
                                        (JSNum.num dims.1)) (JSNum.num 2)
    let offsetY := JSNum.div (JSNum.sub (JSNum.mul (JSNum.num imgH) scale)
                                        (JSNum.num dims.2)) (JSNum.num 2)
    FillProps.pattern scale scale (JSNum.div offsetX scale)
      (JSNum.div offsetY scale)
  | _, _ => FillProps.solid (fallbackFill el)

/-- The draw rectangle for the artboard background image computed by
`computeBgDrawRect` in `CanvasStage.tsx`. -/
structure BgDrawRect where
  drawW : ℚ
  drawH : ℚ
  offsetX : ℚ
  offsetY : ℚ
  naturalW : ℚ
  naturalH : ℚ
  deriving Repr, DecidableEq

/-- `computeBgDrawRect` from `CanvasStage.tsx` (lines 358-388): `null` when
no background image is loaded or either natural dimension is 0 (falsy);
otherwise a contain fit, never upscaling (`Math.min(1, ...)`), rounded and
centred on the artboard. -/
def computeBgDrawRect (bgImage : Option (ℚ × ℚ)) (canvasW canvasH : ℚ) :
    Option BgDrawRect :=
  match bgImage with
  | none => none
  | some (imgW, imgH) =>
    if imgW = 0 ∨ imgH = 0 then none
    else
      let imgRatio := imgW / imgH
      let canvasRatio := canvasW / canvasH
      let dims : ℚ × ℚ :=
        if canvasRatio < imgRatio then
          let scale := min 1 (canvasW / imgW)
          (((jsRound (imgW * scale) : ℤ) : ℚ), ((jsRound (imgH * scale) : ℤ) : ℚ))
        else
          let scale := min 1 (canvasH / imgH)
          (((jsRound (imgW * scale) : ℤ) : ℚ), ((jsRound (imgH * scale) : ℤ) : ℚ))
      some { drawW := dims.1, drawH := dims.2
             offsetX := ((jsRound ((canvasW - dims.1) / 2) : ℤ) : ℚ)
             offsetY := ((jsRound ((canvasH - dims.2) / 2) : ℤ) : ℚ)
             naturalW := imgW, naturalH := imgH }

/-- A transformer bounding box proposal (Konva box, width and height in
artboard units). -/
structure Box where
  x : ℚ := 0
  y : ℚ := 0
  width : ℚ
  height : ℚ
  deriving Repr, DecidableEq

/-- The transformer `boundBoxFunc` from `CanvasStage.tsx` (lines 462-482):
reject any proposal narrower or shorter than 20 units by returning the prior
valid box; when the aspect lock is active (circle/polygon selection) and the
proposed width/height ratio drifts from the old box's ratio by more than
0.01, keep the dimension that changed more and recompute the other from the
old aspect ratio. -/
def boundBoxFunc (lockAspectRatio : Bool) (oldBox newBox : Box) : Box :=
  if newBox.width < 20 ∨ newBox.height < 20 then oldBox
  else if lockAspectRatio then
    let aspectRatio := oldBox.width / oldBox.height
    let newAspectRatio := newBox.width / newBox.height
    if 1/100 < |newAspectRatio - aspectRatio| then
      if |newBox.height - oldBox.height| < |newBox.width - oldBox.width| then
        { newBox with height := newBox.width / aspectRatio }
      else
        { newBox with width := newBox.height * aspectRatio }
    else newBox
  else newBox

/-- The editor state held by the `useCanvas` hook: element list, selection,
the fixed 1080 by 1080 artboard, and the background. -/
structure CanvasState where
  elements : List CanvasElement
  selectedId : Option String := none
  canvasWidth : ℚ := 1080
  canvasHeight : ℚ := 1080
  backgroundColor : String := "#ffffff"
  backgroundImage : Option String := none
  deriving Repr, DecidableEq

/-- The snapshot produced by `exportTemplate` in `useCanvas.ts`. -/
structure ExportedTemplate where
  name : String
  width : ℚ
  height : ℚ
  elements : List CanvasElement
  backgroundColor : String
  backgroundImage : Option String
  deriving Repr, DecidableEq

/-- `exportTemplate` from `useCanvas.ts` (lines 135-144). -/
def exportTemplate (s : CanvasState) : ExportedTemplate where
  name := "Untitled Template"
  width := s.canvasWidth
  height := s.canvasHeight
  elements := s.elements
  backgroundColor := s.backgroundColor
  backgroundImage := s.backgroundImage

/-- The argument accepted by `importTemplate`: `backgroundColor` and
`backgroundImage` are optional keys (outer `Option` is key presence, the
inner `Option` of the image is `null` versus a string). -/
structure ImportPayload where
  elements : List CanvasElement
  backgroundColor : Option String := none
  backgroundImage : Option (Option String) := none
  deriving Repr, DecidableEq

/-- `importTemplate` from `useCanvas.ts` (lines 146-155): replace the
element list, adopt the background color only when supplied and truthy
(non-empty), adopt the background image whenever the key is present
(`!== undefined`), and clear the selection. -/
def importTemplate (t : ImportPayload) (s : CanvasState) : CanvasState :=
  { s with
    elements := t.elements
    backgroundColor :=
      match t.backgroundColor with
      | some bc => if bc = "" then s.backgroundColor else bc
      | none => s.backgroundColor
    backgroundImage :=
      match t.backgroundImage with
      | some bi => bi
      | none => s.backgroundImage
    selectedId := none }

/-- View an exported snapshot as the payload `importTemplate` receives. -/
def ExportedTemplate.toImportPayload (t : ExportedTemplate) : ImportPayload where
  elements := t.elements
  backgroundColor := some t.backgroundColor
  backgroundImage := some t.backgroundImage

/-- `handlePublish` from `Editor.tsx` (lines 244-256), reduced to its data
flow: when the element list is empty the handler returns before touching the
store, otherwise it exports the current state and hands the snapshot to
`publishTemplate`.  The result pairs the (unchanged) canvas state with the
list of snapshots passed to the store collaborator. -/
def handlePublish (s : CanvasState) : CanvasState × List ExportedTemplate :=
  if s.elements.length = 0 then (s, [])
  else (s, [exportTemplate s])

/-- The placeholder-affordance decision of `ShapeRenderer.tsx`: the editor's
renderer computes `hasImage = !!image && (isPlaceholder || !!userImage)` and
paints the dashed outline plus upload hint exactly on non-text shapes with
`element.isPlaceholder && !hasImage` (lines 397-425); `isGeneratorMode` is
an input of the component but does not occur in that condition. -/
def shapeRendererShowsAffordance (el : CanvasElement) (userImage : Option String)
    (imageLoaded : Bool) (isGeneratorMode : Bool) : Bool :=
  let hasImage := imageLoaded && (el.isPlaceholder || userImage.isSome)
  let _ := isGeneratorMode
  el.type != ShapeType.text && (el.isPlaceholder && !hasImage)

/-- The default rect produced by `addElement('rect')` in `useCanvas.ts`,
centred on the 1080 by 1080 artboard. -/
def newRectElement (newId : String) : CanvasElement where
  id := newId
  type := ShapeType.rect
  x := 540
  y := 540
  rotation := 0
  isPlaceholder := false
  width := 200
  height := 200
  cornerRadius := 0
  fill := "#e5e7eb"
  stroke := "#9ca3af"
  strokeWidth := 0

/-- A placeholder circle with no image, as produced by `addElement('circle')`
with the placeholder flag switched on in the properties panel. -/
def placeholderCircle : CanvasElement where
  id := "c7"
  type := ShapeType.circle
  x := 540
  y := 540
  rotation := 0
  isPlaceholder := true
  radius := 100
  fill := "#e5e7eb"
  stroke := "#9ca3af"
  strokeWidth := 0

/-- A 100 by 50 placeholder rect used to exercise the cover fit. -/
def coverSampleRect : CanvasElement :=
  { newRectElement "c4" with width := 100, height := 50, isPlaceholder := true }

/-- A placeholder rect whose fill image loads with zero natural dimensions. -/
def zeroAreaPlaceholder : CanvasElement :=
  { newRectElement "c5" with isPlaceholder := true }

/-- The end-of-gesture readings for the C1 scenario: scale 2 horizontally,
one half vertically. -/
def doubleHalveGesture : GestureNode where
  groupX := 540
  groupY := 540
  groupRotation := 0
  scaleX := 2
  scaleY := 1/2

/-- A gesture trying to shrink the selection to a thousandth of its size. -/
def extremeShrinkGesture : GestureNode where
  groupX := 0
  groupY := 0
  groupRotation := 0
  scaleX := 1/1000
  scaleY := 1/1000

/-- A direct attribute update asking for a 5-unit width. -/
def tinyWidthUpdate : ElementUpdates := { width := some 5 }

/-- A direct attribute update asking for a 40-unit width. -/
def shrinkWidthUpdate : ElementUpdates := { width := some 40 }

/-- A rect whose corner radius sits at the legal maximum for 200 by 200. -/
def bigCornerRect : CanvasElement := { newRectElement "r3" with cornerRadius := 100 }

/-- A direct attribute update moving an element to x = 7. -/
def demoUpdate : ElementUpdates := { x := some 7 }

/-- An editor state whose element list is empty. -/
def emptyCanvasState : CanvasState := { elements := [] }

/-- The new element agrees with the old one on every field the partial
update leaves out. -/
def agreesOutsideUpdate (old new : CanvasElement) (u : ElementUpdates) : Prop :=
  (u.id = none → new.id = old.id) ∧
  (u.type = none → new.type = old.type) ∧
  (u.x = none → new.x = old.x) ∧
  (u.y = none → new.y = old.y) ∧
  (u.rotation = none → new.rotation = old.rotation) ∧
  (u.isPlaceholder = none → new.isPlaceholder = old.isPlaceholder) ∧
  (u.opacity = none → new.opacity = old.opacity) ∧
  (u.strokes = none → new.strokes = old.strokes) ∧
  (u.placeholderImage = none → new.placeholderImage = old.placeholderImage) ∧
  (u.imageOffsetX = none → new.imageOffsetX = old.imageOffsetX) ∧
  (u.imageOffsetY = none → new.imageOffsetY = old.imageOffsetY) ∧
  (u.imageScale = none → new.imageScale = old.imageScale) ∧
  (u.width = none → new.width = old.width) ∧
  (u.height = none → new.height = old.height) ∧
  (u.cornerRadius = none → new.cornerRadius = old.cornerRadius) ∧
  (u.radius = none → new.radius = old.radius) ∧
  (u.sides = none → new.sides = old.sides) ∧
  (u.fill = none → new.fill = old.fill) ∧
  (u.stroke = none → new.stroke = old.stroke) ∧
  (u.strokeWidth = none → new.strokeWidth = old.strokeWidth) ∧
  (u.text = none → new.text = old.text) ∧
  (u.fontSize = none → new.fontSize = old.fontSize) ∧
  (u.fontFamily = none → new.fontFamily = old.fontFamily) ∧
  (u.src = none → new.src = old.src)

/-- C1: a rect of width 200 and height 200 receiving an end-of-gesture node
with scaleX 2 and scaleY 0.5 yields the update width 400 and height 100, and
the live node's scale factors are reset to 1 before the update is applied. -/
theorem rect_transform_scenario :
    (handleTransformEnd (newRectElement "r1") doubleHalveGesture).1.width = some 400 ∧
    (handleTransformEnd (newRectElement "r1") doubleHalveGesture).1.height = some 100 ∧
    (handleTransformEnd (newRectElement "r1") doubleHalveGesture).2.scaleX = 1 ∧
    (handleTransformEnd (newRectElement "r1") doubleHalveGesture).2.scaleY = 1 := by
  refine ⟨?_, ?_, rfl, rfl⟩ <;>
    norm_num [handleTransformEnd, newRectElement, doubleHalveGesture, jsRound]

/-- C2 (amended): the size minimum is enforced by the transform reconciler
(width and height at least 20 for rect and image, radius at least 10 for
circle and polygon), not at every mutation site. -/
theorem transform_end_enforces_minimums (el : CanvasElement) (n : GestureNode) :
    ((el.type = ShapeType.rect ∨ el.type = ShapeType.image) →
      20 ≤ (applyUpdates el (handleTransformEnd el n).1).width ∧
      20 ≤ (applyUpdates el (handleTransformEnd el n).1).height) ∧
    ((el.type = ShapeType.circle ∨ el.type = ShapeType.polygon) →
      10 ≤ (applyUpdates el (handleTransformEnd el n).1).radius) := by
  constructor
  · rintro (h | h) <;>
    · simp only [handleTransformEnd, h, applyUpdates, Option.getD_some]
      constructor <;> exact_mod_cast Int.cast_le.mpr (le_max_left _ _)
  · rintro (h | h) <;>
    · simp only [handleTransformEnd, h, applyUpdates, Option.getD_some]
      exact_mod_cast Int.cast_le.mpr (le_max_left _ _)

/-- C2 (witness): a rect shrunk by a factor 1000 gesture still comes out at
least 20 by 20. -/
theorem transform_end_enforces_minimums_witness :
    20 ≤ (applyUpdates (newRectElement "w2")
            (handleTransformEnd (newRectElement "w2") extremeShrinkGesture).1).width ∧
    20 ≤ (applyUpdates (newRectElement "w2")
            (handleTransformEnd (newRectElement "w2") extremeShrinkGesture).1).height :=
  (transform_end_enforces_minimums (newRectElement "w2") extremeShrinkGesture).1
    (Or.inl rfl)

/-- C2 (counterexample): `updateElement` applies a supplied width of 5
verbatim, so the 20-unit minimum is not enforced at that mutation site. -/
theorem update_element_no_minimum_counterexample :
    updateElement [newRectElement "r1"] "r1" tinyWidthUpdate =
      [{ newRectElement "r1" with width := 5 }] ∧
    ¬ (20 ≤ ({ newRectElement "r1" with width := 5 } : CanvasElement).width) := by
  constructor
  · simp [updateElement, applyUpdates, tinyWidthUpdate, newRectElement]
  · decide

/-- C3 (counterexample): shrinking a 200 by 200 rect with corner radius 100
to width 40 through `updateElement` leaves the corner radius at 100, above
min(width, height)/2 = 20, so the invariant does not survive updates. -/
theorem corner_radius_invariant_counterexample :
    updateElement [bigCornerRect] "r3" shrinkWidthUpdate =
      [{ bigCornerRect with width := 40 }] ∧
    ¬ (({ bigCornerRect with width := 40 } : CanvasElement).cornerRadius ≤
        min ({ bigCornerRect with width := 40 } : CanvasElement).width
          ({ bigCornerRect with width := 40 } : CanvasElement).height / 2) := by
  constructor
  · simp [updateElement, applyUpdates, shrinkWidthUpdate, bigCornerRect, newRectElement]
  · norm_num [bigCornerRect, newRectElement, min_def]

/-- C3 (amended): the corner-radius invariant holds at creation
(`addElement('rect')` starts at corner radius 0), and no mutation site
re-establishes it: the transform reconciler never touches `cornerRadius`,
and `updateElement` copies it unchanged whenever the update leaves it out,
so a width or height shrink can leave it above min(width, height)/2. -/
theorem corner_radius_only_at_creation :
    (∀ i : String, 0 ≤ (newRectElement i).cornerRadius ∧
      (newRectElement i).cornerRadius ≤
        min (newRectElement i).width (newRectElement i).height / 2) ∧
    (∀ (el : CanvasElement) (n : GestureNode),
      ((handleTransformEnd el n).1).cornerRadius = none) ∧
    (∀ (el : CanvasElement) (u : ElementUpdates), u.cornerRadius = none →
      (applyUpdates el u).cornerRadius = el.cornerRadius) := by
  refine ⟨fun i => by constructor <;> norm_num [newRectElement, min_def], ?_, ?_⟩
  · intro el n
    cases h : el.type <;> simp [handleTransformEnd, h]
  · intro el u h
    simp [applyUpdates, h]

/-- C3 (witness): a height-only update leaves the corner radius of a fresh
rect unchanged. -/
theorem corner_radius_only_at_creation_witness :
    (applyUpdates (newRectElement "w3") { height := some 77 }).cornerRadius =
      (newRectElement "w3").cornerRadius :=
  corner_radius_only_at_creation.2.2 (newRectElement "w3") { height := some 77 } rfl

/-- C4: for a usable image of positive natural dimensions and positive
target dimensions, `URLImageShape.fillProps` produces a uniform pattern
scale max(targetW/imgW, targetH/imgH) on both axes, and offsets
(imgW*scale - targetW)/2 and (imgH*scale - targetH)/2 divided back by the
scale, centring the pattern in the shape's local frame. -/
theorem cover_fit_formula (el : CanvasElement) (s : String) (imgW imgH : ℚ)
    (hiw : 0 < imgW) (hih : 0 < imgH)
    (hw : 0 < (shapeDims el).1) (hh : 0 < (shapeDims el).2) :
    fillProps el (some s) (some (imgW, imgH)) =
      FillProps.pattern
        (JSNum.num (max ((shapeDims el).1 / imgW) ((shapeDims el).2 / imgH)))
        (JSNum.num (max ((shapeDims el).1 / imgW) ((shapeDims el).2 / imgH)))
        (JSNum.num (((imgW * max ((shapeDims el).1 / imgW) ((shapeDims el).2 / imgH)
            - (shapeDims el).1) / 2) /
          max ((shapeDims el).1 / imgW) ((shapeDims el).2 / imgH)))
        (JSNum.num (((imgH * max ((shapeDims el).1 / imgW) ((shapeDims el).2 / imgH)
            - (shapeDims el).2) / 2) /
          max ((shapeDims el).1 / imgW) ((shapeDims el).2 / imgH))) := by
  have hm : 0 < max ((shapeDims el).1 / imgW) ((shapeDims el).2 / imgH) :=
    lt_max_of_lt_left (div_pos hw hiw)
  simp only [fillProps, JSNum.jsMax, JSNum.div, JSNum.mul, JSNum.sub,
    hiw.ne', hih.ne', hm.ne', if_false, ite_false]
  norm_num [hiw.ne', hih.ne', hm.ne']

/-- C4 (witness): a 100 by 50 placeholder rect covered by a 10 by 10 image
gets scale 10 on both axes, horizontal pattern offset 0 and vertical
pattern offset 5/2. -/
theorem cover_fit_formula_witness :
    fillProps coverSampleRect (some "user.png") (some (10, 10)) =
      FillProps.pattern (JSNum.num 10) (JSNum.num 10) (JSNum.num 0)
        (JSNum.num (5/2)) := by
  have h := cover_fit_formula coverSampleRect "user.png" 10 10 (by norm_num)
    (by norm_num)
    (by norm_num [shapeDims, coverSampleRect, newRectElement])
    (by norm_num [shapeDims, coverSampleRect, newRectElement])
  rw [h]
  norm_num [shapeDims, coverSampleRect, newRectElement, max_def]

/-- C5 (counterexample): a placeholder rect whose image loads with natural
dimensions 0 by 0 is not reported unavailable: `fillProps` still produces a
pattern fill, whose scale is Infinity and whose offsets are NaN, so
non-finite values are placed into the draw tree. -/
theorem zero_area_image_counterexample :
    fillProps zeroAreaPlaceholder (some "img.png") (some (0, 0)) =
      FillProps.pattern JSNum.inf JSNum.inf JSNum.nan JSNum.nan ∧
    FillProps.pattern JSNum.inf JSNum.inf JSNum.nan JSNum.nan ≠
      FillProps.solid (fallbackFill zeroAreaPlaceholder) ∧
    JSNum.inf.isFinite = false ∧ JSNum.nan.isFinite = false := by
  refine ⟨?_, by simp, rfl, rfl⟩
  norm_num [fillProps, shapeDims, zeroAreaPlaceholder, newRectElement,
    JSNum.div, JSNum.jsMax, JSNum.mul, JSNum.sub]

/-- C5 (amended): the zero-dimension guard exists only on the background
path: `computeBgDrawRect` returns null for a zero-area image, and
`fillProps` falls back to the solid fill exactly when the image has not
loaded or no source string was supplied; no epsilon clamp exists on the
pattern path. -/
theorem fitter_unavailable_guards
    (imgW imgH canvasW canvasH : ℚ) (hz : imgW = 0 ∨ imgH = 0) :
    computeBgDrawRect (some (imgW, imgH)) canvasW canvasH = none ∧
    (∀ (el : CanvasElement) (src : Option String),
      fillProps el src none = FillProps.solid (fallbackFill el)) ∧
    (∀ (el : CanvasElement) (image : Option (ℚ × ℚ)),
      fillProps el none image = FillProps.solid (fallbackFill el)) := by
  refine ⟨by simp [computeBgDrawRect, hz], ?_, ?_⟩
  · intro el src
    cases src <;> rfl
  · intro el image
    rcases image with _ | ⟨iw, ih⟩ <;> rfl

/-- C5 (witness): a background image loaded with zero natural width yields
no background draw rectangle. -/
theorem fitter_unavailable_guards_witness :
    computeBgDrawRect (some (0, 720)) 1080 1080 = none :=
  (fitter_unavailable_guards 0 720 1080 1080 (Or.inl rfl)).1

/-- C6: the bound box constraint rejects any proposal narrower or shorter
than 20 regardless of lock state, returning the prior valid box; with the
aspect lock active and the proposed ratio more than 0.01 away from the old
box's ratio, the constrained box keeps the old aspect ratio exactly and
keeps the dimension whose absolute change was larger, snapping the other. -/
theorem bound_box_policy (lock : Bool) (oldBox newBox : Box) :
    ((newBox.width < 20 ∨ newBox.height < 20) →
      boundBoxFunc lock oldBox newBox = oldBox) ∧
    (20 ≤ newBox.width → 20 ≤ newBox.height →
      0 < oldBox.width → 0 < oldBox.height →
      1/100 < |newBox.width / newBox.height - oldBox.width / oldBox.height| →
        ((boundBoxFunc true oldBox newBox).width /
            (boundBoxFunc true oldBox newBox).height =
          oldBox.width / oldBox.height) ∧
        (|newBox.height - oldBox.height| < |newBox.width - oldBox.width| →
          (boundBoxFunc true oldBox newBox).width = newBox.width) ∧
        (¬ |newBox.height - oldBox.height| < |newBox.width - oldBox.width| →
          (boundBoxFunc true oldBox newBox).height = newBox.height)) := by
  constructor
  · intro h
    unfold boundBoxFunc
    rw [if_pos h]
  · intro h20w h20h how hoh hdev
    have hmin : ¬ (newBox.width < 20 ∨ newBox.height < 20) := by
      push_neg
      exact ⟨by linarith, by linarith⟩
    have hnw : newBox.width ≠ 0 := by linarith
    have hnh : newBox.height ≠ 0 := by linarith
    have har : oldBox.width / oldBox.height ≠ 0 := (div_pos how hoh).ne'
    unfold boundBoxFunc
    rw [if_neg hmin]
    simp only [if_true, hdev, ite_true]
    by_cases hwd : |newBox.height - oldBox.height| < |newBox.width - oldBox.width|
    · rw [if_pos hwd]
      refine ⟨?_, fun _ => rfl, fun hc => absurd hwd hc⟩
      show newBox.width / (newBox.width / (oldBox.width / oldBox.height)) =
        oldBox.width / oldBox.height
      rw [div_div_eq_mul_div, mul_comm, mul_div_assoc, div_self hnw, mul_one]
    · rw [if_neg hwd]
      refine ⟨?_, fun hc => absurd hc hwd, fun _ => rfl⟩
      show newBox.height * (oldBox.width / oldBox.height) / newBox.height =
        oldBox.width / oldBox.height
      rw [mul_comm, mul_div_assoc, div_self hnh, mul_one]

/-- C6 (witness): a 10 by 50 proposal is rejected in favour of the prior
100 by 100 box, and a locked 150 by 100 proposal is snapped back to the old
square ratio while keeping the more-changed width of 150. -/
theorem bound_box_policy_witness :
    boundBoxFunc false (Box.mk 0 0 100 100) (Box.mk 0 0 10 50) =
      Box.mk 0 0 100 100 ∧
    (boundBoxFunc true (Box.mk 0 0 100 100) (Box.mk 0 0 150 100)).width /
      (boundBoxFunc true (Box.mk 0 0 100 100) (Box.mk 0 0 150 100)).height =
      (Box.mk 0 0 100 100).width / (Box.mk 0 0 100 100).height ∧
    (boundBoxFunc true (Box.mk 0 0 100 100) (Box.mk 0 0 150 100)).width =
      (Box.mk 0 0 150 100).width := by
  have hdev : (1:ℚ)/100 <
      |(Box.mk 0 0 150 100).width / (Box.mk 0 0 150 100).height -
        (Box.mk 0 0 100 100).width / (Box.mk 0 0 100 100).height| := by
    show (1:ℚ)/100 < |(150:ℚ)/100 - 100/100|
    rw [abs_of_nonneg (by norm_num : (0:ℚ) ≤ 150/100 - 100/100)]
    norm_num
  have h := (bound_box_policy true (Box.mk 0 0 100 100) (Box.mk 0 0 150 100)).2
    (by norm_num) (by norm_num) (by norm_num) (by norm_num) hdev
  refine ⟨(bound_box_policy false _ _).1 (Or.inl (by norm_num)), h.1, ?_⟩
  refine h.2.1 ?_
  show |(100:ℚ) - 100| < |(150:ℚ) - 100|
  rw [abs_of_nonneg (by norm_num : (0:ℚ) ≤ (100:ℚ) - 100),
    abs_of_nonneg (by norm_num : (0:ℚ) ≤ (150:ℚ) - 100)]
  norm_num

/-- C7 (counterexample): a placeholder circle with no usable image still has
its dashed-outline upload affordance painted by `ShapeRenderer` when
`isGeneratorMode` is true, contradicting the claimed suppression in
generator mode. -/
theorem generator_affordance_counterexample :
    shapeRendererShowsAffordance placeholderCircle none false true = true := by
  decide

/-- C7 (amended): `ShapeRenderer` paints the affordance for a placeholder
shape with no usable image in editor mode, but the decision is independent
of `isGeneratorMode`: the generator-mode suppression does not exist in this
renderer (the generator view instead bypasses it with its own renderer). -/
theorem affordance_mode_independent :
    shapeRendererShowsAffordance placeholderCircle none false false = true ∧
    (∀ (el : CanvasElement) (userImage : Option String) (imageLoaded : Bool),
      shapeRendererShowsAffordance el userImage imageLoaded true =
        shapeRendererShowsAffordance el userImage imageLoaded false) := by
  exact ⟨by decide, fun el ui il => rfl⟩

/-- C8: importing the exported snapshot of any editor state restores the
element list, the background color, the background image, and the artboard
size exactly. -/
theorem import_export_roundtrip (s : CanvasState) :
    (importTemplate (exportTemplate s).toImportPayload s).elements =
      s.elements ∧
    (importTemplate (exportTemplate s).toImportPayload s).backgroundColor =
      s.backgroundColor ∧
    (importTemplate (exportTemplate s).toImportPayload s).backgroundImage =
      s.backgroundImage ∧
    (importTemplate (exportTemplate s).toImportPayload s).canvasWidth =
      s.canvasWidth ∧
    (importTemplate (exportTemplate s).toImportPayload s).canvasHeight =
      s.canvasHeight := by
  refine ⟨rfl, ?_, rfl, rfl, rfl⟩
  by_cases h : s.backgroundColor = "" <;>
    simp [importTemplate, exportTemplate, ExportedTemplate.toImportPayload, h]

/-- C9: publishing with an empty element list is rejected before the store
collaborator is reached: no snapshot goes to `publishTemplate` and the
canvas state is unchanged. -/
theorem publish_empty_guard (s : CanvasState) (h : s.elements = []) :
    handlePublish s = (s, []) := by
  simp [handlePublish, h]

/-- C9 (witness): publishing the empty editor state calls no store and
changes nothing. -/
theorem publish_empty_guard_witness :
    handlePublish emptyCanvasState = (emptyCanvasState, []) :=
  publish_empty_guard emptyCanvasState rfl

/-- C10: `updateElement` preserves length and stacking order, leaves every
element with a different id unchanged in place, is the identity when no
element carries the target id, and rewrites a matching element to one that
agrees with it on every field the partial update leaves out. -/
theorem update_element_frame (prev : List CanvasElement) (targetId : String)
    (u : ElementUpdates) :
    (updateElement prev targetId u).length = prev.length ∧
    (∀ (i : ℕ) (el : CanvasElement), prev[i]? = some el → el.id ≠ targetId →
      (updateElement prev targetId u)[i]? = some el) ∧
    ((∀ el ∈ prev, el.id ≠ targetId) → updateElement prev targetId u = prev) ∧
    (∀ (i : ℕ) (el : CanvasElement), prev[i]? = some el → el.id = targetId →
      (updateElement prev targetId u)[i]? = some (applyUpdates el u) ∧
      agreesOutsideUpdate el (applyUpdates el u) u) := by
  refine ⟨List.length_map _ _, ?_, ?_, ?_⟩
  · intro i el h hne
    rw [updateElement, List.getElem?_map, h]
    simp [hne]
  · intro hall
    rw [updateElement]
    exact (List.map_congr_left fun el hel => if_neg (hall el hel)).trans
      (List.map_id _)
  · intro i el h heq
    refine ⟨?_, ?_⟩
    · rw [updateElement, List.getElem?_map, h]
      simp [heq]
    · simp only [agreesOutsideUpdate, applyUpdates]
      and_intros <;> (intro hf; simp [hf])

/-- C10 (witness): updating element "a" of a two-element list with a
position-only change keeps "b" in place at index 1, is the identity under a
missing id, and preserves every field the update does not mention. -/
theorem update_element_frame_witness :
    (updateElement [newRectElement "a", newRectElement "b"] "a" demoUpdate)[1]? =
      some (newRectElement "b") ∧
    updateElement [newRectElement "a", newRectElement "b"] "zz" demoUpdate =
      [newRectElement "a", newRectElement "b"] ∧
    agreesOutsideUpdate (newRectElement "a")
      (applyUpdates (newRectElement "a") demoUpdate) demoUpdate := by
  refine ⟨?_, ?_, ?_⟩
  · exact (update_element_frame [newRectElement "a", newRectElement "b"] "a"
      demoUpdate).2.1 1 (newRectElement "b") (by rfl) (by decide)
  · exact (update_element_frame [newRectElement "a", newRectElement "b"] "zz"
      demoUpdate).2.2.1 (by decide)
  · exact ((update_element_frame [newRectElement "a"] "a" demoUpdate).2.2.2 0
      (newRectElement "a") (by rfl) rfl).2
